import Mathlib

/-!
Verification of the signed-attestation-to-proof pipeline.

This file gives a shallow embedding of the pipeline's code:

* the attestation signer's canonical serialization
  (`JSON.stringify(userData, Object.keys(userData).sort())` in
  `server/routes/twitter.ts`, GET /user handler);
* the PKCE challenge generation (`generatePKCEChallenge` in
  `src/utils/pkce.ts`);
* the three twitter route handlers (POST /auth, POST /token, GET /user);
* the OAuth callback handler (`AuthCallback.handleCallback`);
* the client proof pipeline (`index.js` submit handler, `serializeProof`,
  and `verification.js` `deserializeProof`).

External collaborators (Twitter's HTTP API, Web Crypto SHA-256, the Noir
toolchain's compile/execute/prove/verify) are modelled as explicit
parameters: handlers take the external call's result as an argument.
-/

/-! ## JSON values

A model of the JavaScript values that reach `JSON.stringify` in this
code base: the provider resource objects are built from `null`, booleans,
numbers, strings, arrays and objects.  Numbers are modelled as integers
(the payloads carry only integral counts); objects are ordered field
lists, mirroring JS property insertion order. -/

inductive Json where
  | null : Json
  | bool (b : Bool) : Json
  | num (n : Int) : Json
  | str (s : String) : Json
  | arr (elems : List Json) : Json
  | obj (fields : List (String × Json)) : Json
deriving Repr

/-- Property lookup `fields[k]` on a JS object: first field whose name
matches (JS objects cannot hold duplicate keys, so first-match is exact). -/
def findField (k : String) : List (String × Json) → Option Json
  | [] => none
  | (k', v) :: rest => if k' = k then some v else findField k rest

/-- Hex digit characters, lowercase, as produced by `Number.prototype.toString(16)`. -/
def hexDigitChar (n : Nat) : Char :=
  if n < 10 then Char.ofNat (48 + n) else Char.ofNat (87 + n)

/-- Four-hex-digit form used by `JSON.stringify` for control characters
(`\u00XX`). -/
def uEscape (n : Nat) : String :=
  String.mk ['\\', 'u', '0', '0', hexDigitChar (n / 16), hexDigitChar (n % 16)]

/-- Escaping of one character inside a JSON string literal, as
`JSON.stringify` performs it. -/
def escapeJsonChar (c : Char) : String :=
  if c = '"' then "\\\""
  else if c = '\\' then "\\\\"
  else if c = '\n' then "\\n"
  else if c = '\r' then "\\r"
  else if c = '\t' then "\\t"
  else if c = '\x08' then "\\b"
  else if c = '\x0c' then "\\f"
  else if c.toNat < 32 then uEscape c.toNat
  else String.singleton c

/-- JSON string literal for `s`: quotes around the escaped characters. -/
def quoteJson (s : String) : String :=
  "\"" ++ String.join (s.data.map escapeJsonChar) ++ "\""

/-- Rendering of a JS number value; the payload numbers are integral. -/
def jsonNumToString (n : Int) : String := toString n

theorem findField_sizeOf {k : String} :
    ∀ (fs : List (String × Json)) {v : Json},
      findField k fs = some v → sizeOf v < sizeOf fs
  | [], v, h => by simp [findField] at h
  | (k', w) :: rest, v, h => by
    by_cases hk : k' = k
    · simp [findField, hk] at h
      subst h
      simp
      omega
    · simp [findField, hk] at h
      have := findField_sizeOf rest h
      simp
      omega

/-- Embedding of `JSON.stringify(value, ks)` where `ks` is a replacer
array (a property list).  Per the JS specification, when a replacer array
is supplied every object — at every depth — serializes exactly the
properties named in the array, in the array's order; arrays serialize all
their elements.  The call site passes a deduplicated property list
(`Object.keys(userData).sort()`), so the list is used as given. -/
def stringifyR (ks : List String) (j : Json) : String :=
  match j with
  | .null => "null"
  | .bool true => "true"
  | .bool false => "false"
  | .num n => jsonNumToString n
  | .str s => quoteJson s
  | .arr xs =>
      "[" ++ String.intercalate "," (xs.attach.map (fun x => stringifyR ks x.1)) ++ "]"
  | .obj fs =>
      "\x7b" ++ String.intercalate ","
        (ks.filterMap (fun k =>
          match h : findField k fs with
          | some v => some (quoteJson k ++ ":" ++ stringifyR ks v)
          | none => none)) ++ "\x7d"
termination_by sizeOf j
decreasing_by
  · have := List.sizeOf_lt_of_mem x.2
    simp
    omega
  · have := findField_sizeOf _ h
    simp
    omega

/-- Keys of the top-level object, in property order: `Object.keys(userData)`. -/
def topKeys : Json → List String
  | .obj fs => fs.map Prod.fst
  | _ => []

/-- The attestation signer's canonical serialization
(`JSON.stringify(userData, Object.keys(userData).sort())` in the GET /user
handler).  `Array.prototype.sort()` on the key strings is modelled by
insertion sort under the lexicographic string order; for a duplicate-free
key list the sorted result is the unique sorted permutation, so the
choice of sorting algorithm is immaterial. -/
def serializedData (userData : Json) : String :=
  stringifyR (List.insertionSort (· ≤ ·) (topKeys userData)) userData

/-! ## Key permutations

`KeyPerm j j'` relates two JSON values that differ only in the ordering of
object fields, at any depth.  Object fields are compared through their key
multiset (`hdom`, a list permutation of the key lists) and through property
lookup of the values (`hval`); since JS objects hold each key at most once,
this captures exactly the recursive key reorderings of a payload. -/

inductive KeyPerm : Json → Json → Prop where
  | null : KeyPerm .null .null
  | bool (b : Bool) : KeyPerm (.bool b) (.bool b)
  | num (n : Int) : KeyPerm (.num n) (.num n)
  | str (s : String) : KeyPerm (.str s) (.str s)
  | arr {xs ys : List Json}
      (hlen : xs.length = ys.length)
      (h : ∀ i (h1 : i < xs.length) (h2 : i < ys.length),
        KeyPerm (xs.get ⟨i, h1⟩) (ys.get ⟨i, h2⟩)) :
      KeyPerm (.arr xs) (.arr ys)
  | obj {fs gs : List (String × Json)}
      (hdom : (fs.map Prod.fst).Perm (gs.map Prod.fst))
      (hval : ∀ k v w, findField k fs = some v → findField k gs = some w →
        KeyPerm v w) :
      KeyPerm (.obj fs) (.obj gs)

theorem KeyPerm.refl : ∀ j : Json, KeyPerm j j
  | .null => .null
  | .bool b => .bool b
  | .num n => .num n
  | .str s => .str s
  | .arr xs => by
    refine .arr rfl (fun i h1 h2 => ?_)
    have hsz := List.sizeOf_get xs ⟨i, h1⟩
    exact KeyPerm.refl (xs.get ⟨i, h1⟩)
  | .obj fs => by
    refine .obj (List.Perm.refl _) (fun k v w hv hw => ?_)
    rw [hv] at hw
    cases hw
    have := findField_sizeOf _ hv
    exact KeyPerm.refl v
termination_by j => sizeOf j
decreasing_by
  · simp at hsz ⊢; omega
  · simp; omega

/-- Lookup succeeds exactly on the keys of the field list. -/
theorem findField_isSome_iff {k : String} :
    ∀ (fs : List (String × Json)),
      (findField k fs).isSome ↔ k ∈ fs.map Prod.fst
  | [] => by simp [findField]
  | (k', v) :: rest => by
    by_cases hk : k' = k
    · simp [findField, hk]
    · simp [findField, hk, findField_isSome_iff rest, Ne.symm hk]

/-- Key-permuted objects agree on which lookups succeed. -/
theorem findField_none_of_perm {k : String} {fs gs : List (String × Json)}
    (hdom : (fs.map Prod.fst).Perm (gs.map Prod.fst))
    (h : findField k fs = none) : findField k gs = none := by
  cases hgs : findField k gs with
  | none => rfl
  | some w =>
    have hmem : k ∈ gs.map Prod.fst := by
      rw [← findField_isSome_iff _]
      simp [hgs]
    have hmem' : k ∈ fs.map Prod.fst := hdom.mem_iff.mpr hmem
    rw [← findField_isSome_iff _] at hmem'
    simp [h] at hmem'

theorem stringifyR_arr (ks : List String) (xs : List Json) :
    stringifyR ks (.arr xs) =
      "[" ++ String.intercalate "," (xs.map (stringifyR ks)) ++ "]" := by
  rw [stringifyR]
  congr 2
  simp

theorem stringifyR_obj (ks : List String) (fs : List (String × Json)) :
    stringifyR ks (.obj fs) =
      "\x7b" ++ String.intercalate ","
        (ks.filterMap (fun k =>
          (findField k fs).map (fun v => quoteJson k ++ ":" ++ stringifyR ks v)))
      ++ "\x7d" := by
  rw [stringifyR]
  congr 2
  refine congrArg _ ?_
  congr 1
  funext k
  cases hf : findField k fs <;> simp [hf]

/-- Serialization with a fixed property list is invariant under key
reordering: the output consults objects only through property lookup. -/
theorem stringifyR_eq_of_keyPerm (ks : List String) {j j' : Json}
    (h : KeyPerm j j') : stringifyR ks j = stringifyR ks j' := by
  induction h with
  | null => rfl
  | bool b => rfl
  | num n => rfl
  | str s => rfl
  | arr hlen hv ih =>
    rw [stringifyR_arr, stringifyR_arr]
    congr 2
    refine congrArg _ ?_
    apply List.ext_getElem (by simp [hlen])
    intro i hi1 hi2
    simp only [List.length_map] at hi1 hi2
    simp only [List.getElem_map]
    simpa [List.get_eq_getElem] using ih i hi1 hi2
  | obj hdom hval ih =>
    rw [stringifyR_obj, stringifyR_obj]
    congr 2
    refine congrArg _ ?_
    congr 1
    funext k
    cases hf : findField k _ with
    | none => rw [findField_none_of_perm hdom hf]
    | some v =>
      cases hg : findField k _ with
      | none =>
        have := findField_none_of_perm hdom.symm hg
        rw [this] at hf
        cases hf
      | some w =>
        simp only [Option.map_some']
        rw [ih k v w hf hg]

/-- Sorting is a function of the key multiset: permuted inputs sort to the
same list (the unique sorted permutation, by antisymmetry of `≤`). -/
theorem insertionSort_eq_of_perm {l l' : List String} (h : l.Perm l') :
    List.insertionSort (· ≤ ·) l = List.insertionSort (· ≤ ·) l' := by
  haveI : IsAntisymm String (· ≤ ·) := ⟨fun _ _ => le_antisymm⟩
  have hs1 : List.Sorted (· ≤ ·) (List.insertionSort (· ≤ ·) l) :=
    List.sorted_insertionSort _ l
  have hs2 : List.Sorted (· ≤ ·) (List.insertionSort (· ≤ ·) l') :=
    List.sorted_insertionSort _ l'
  have hp : (List.insertionSort (· ≤ ·) l).Perm (List.insertionSort (· ≤ ·) l') :=
    (List.perm_insertionSort _ l).trans
      (h.trans (List.perm_insertionSort _ l').symm)
  exact List.eq_of_perm_of_sorted hp hs1 hs2

theorem topKeys_perm {j j' : Json} (h : KeyPerm j j') :
    (topKeys j).Perm (topKeys j') := by
  cases h with
  | obj hdom hval => exact hdom
  | _ => rfl

/-- C1.  For every valid payload `P` and every key permutation of `P`
(including permutations of nested objects such as `public_metrics`), the
digest the attestation signer computes over the canonical serialization
`JSON.stringify(P, Object.keys(P).sort())` equals the digest computed
over the serialization of the permuted payload: the serialized strings
are equal, hence so is `SHA256` (any digest function) of them. -/
theorem serializedData_keyPerm_invariant (P P' : Json) (h : KeyPerm P P') :
    serializedData P = serializedData P' ∧
    ∀ sha256 : String → List Nat,
      sha256 (serializedData P) = sha256 (serializedData P') := by
  have hs : serializedData P = serializedData P' := by
    unfold serializedData
    rw [insertionSort_eq_of_perm (topKeys_perm h)]
    exact stringifyR_eq_of_keyPerm _ h
  exact ⟨hs, fun f => by rw [hs]⟩

/-- On duplicate-free field lists (the JS-object case), lookup is
invariant under field permutation. -/
theorem findField_eq_of_perm {k : String} {fs gs : List (String × Json)}
    (hperm : fs.Perm gs) :
    (fs.map Prod.fst).Nodup → findField k fs = findField k gs := by
  induction hperm with
  | nil => intro _; rfl
  | cons x hp ih =>
    intro hnd
    obtain ⟨a, b⟩ := x
    simp only [findField]
    by_cases ha : a = k
    · simp [ha]
    · simp only [ha, if_false]
      exact ih (by simpa using hnd.of_cons)
  | swap x y l =>
    intro hnd
    obtain ⟨a, b⟩ := x
    obtain ⟨c, d⟩ := y
    have hne : c ≠ a := by
      simp only [List.map_cons, List.nodup_cons, List.mem_cons] at hnd
      exact fun hca => hnd.1 (Or.inl hca)
    by_cases hc : c = k <;> by_cases ha : a = k <;>
      simp [findField, hc, ha]
    exact absurd (hc.trans ha.symm) hne
  | trans h12 h23 ih12 ih23 =>
    intro hnd
    have hnd2 := ((h12.map Prod.fst).nodup_iff).mp hnd
    exact (ih12 hnd).trans (ih23 hnd2)

/-- A wholesale permutation of a duplicate-free field list is a key
permutation (values carried along unchanged). -/
theorem keyPerm_obj_of_perm {fs gs : List (String × Json)}
    (hnd : (fs.map Prod.fst).Nodup) (hperm : fs.Perm gs) :
    KeyPerm (.obj fs) (.obj gs) := by
  refine KeyPerm.obj (hperm.map Prod.fst) (fun k v w hv hw => ?_)
  rw [findField_eq_of_perm hperm hnd] at hv
  rw [hv] at hw
  cases hw
  exact KeyPerm.refl v

/-- Concrete provider payload, as in testable-property scenario C, with a
nested `public_metrics` object. -/
def payloadEx : Json :=
  .obj [("id", .str "1"), ("created_at", .str "2023-01-01"),
        ("public_metrics",
          .obj [("followers_count", .num 10), ("tweet_count", .num 5)])]

/-- The same payload with the top-level keys and the nested
`public_metrics` keys reordered. -/
def payloadExPermuted : Json :=
  .obj [("public_metrics",
          .obj [("tweet_count", .num 5), ("followers_count", .num 10)]),
        ("created_at", .str "2023-01-01"), ("id", .str "1")]

theorem keyPerm_payloadEx : KeyPerm payloadEx payloadExPermuted := by
  unfold payloadEx payloadExPermuted
  refine KeyPerm.obj (by decide) (fun k v w hv hw => ?_)
  simp only [findField] at hv hw
  by_cases h1 : "id" = k
  · subst h1
    simp at hv hw
    subst hv; subst hw
    exact KeyPerm.refl _
  · by_cases h2 : "created_at" = k
    · subst h2
      simp at hv hw
      subst hv; subst hw
      exact KeyPerm.refl _
    · by_cases h3 : "public_metrics" = k
      · subst h3
        simp at hv hw
        subst hv; subst hw
        exact keyPerm_obj_of_perm (by decide) (List.Perm.swap _ _ _)
      · simp [h1, h2, h3] at hv

/-- Witness for C1 at the concrete nested payload: top-level keys and the
nested `public_metrics` keys are permuted, the serializations (and hence
all digests) agree. -/
theorem serializedData_keyPerm_invariant_witness :
    serializedData payloadEx = serializedData payloadExPermuted ∧
    ∀ sha256 : String → List Nat,
      sha256 (serializedData payloadEx) = sha256 (serializedData payloadExPermuted) :=
  serializedData_keyPerm_invariant payloadEx payloadExPermuted keyPerm_payloadEx

/-! ## PKCE challenge generation

Embedding of `generatePKCEChallenge` (`src/utils/pkce.ts`).  The browser
externals are parameters: `rnd` is the output of
`crypto.getRandomValues(new Uint8Array(32))` (32 bytes), and `sha256` is
`crypto.subtle.digest("SHA-256", TextEncoder.encode(·))` viewed at the
string level (the verifier is pure ASCII hex, so UTF-8 encoding is the
identity on char codes); it returns the digest's bytes. -/

/-- Rendering of one byte as `b.toString(16).padStart(2, "0")`:
lowercase hex, left-padded to two digits. -/
def hexByte (b : Nat) : String :=
  if b < 16 then String.mk ['0', hexDigitChar b]
  else String.mk [hexDigitChar (b / 16), hexDigitChar (b % 16)]

/-- Hex rendering of a byte sequence (`Array.from(bytes).map(hex).join("")`,
also `Buffer.toString("hex")`). -/
def bytesToHex : List Nat → String
  | [] => ""
  | b :: rest => hexByte b ++ bytesToHex rest

/-- Base64 sextet values of a byte list, three bytes at a time (the
digit stream `btoa` produces before alphabet lookup and padding). -/
def b64Sextets : List Nat → List Nat
  | [] => []
  | [b1] => [b1 / 4, b1 % 4 * 16]
  | [b1, b2] => [b1 / 4, b1 % 4 * 16 + b2 / 16, b2 % 16 * 4]
  | b1 :: b2 :: b3 :: rest =>
      b1 / 4 :: (b1 % 4 * 16 + b2 / 16) :: (b2 % 16 * 4 + b3 / 64) :: b3 % 64 ::
        b64Sextets rest

/-- Count of `=` padding characters `btoa` appends. -/
def b64PadLen (bs : List Nat) : Nat :=
  match bs.length % 3 with
  | 1 => 2
  | 2 => 1
  | _ => 0

/-- Character of the standard base64 alphabet (RFC 4648 §4), as used by
`btoa`. -/
def b64StdChar (n : Nat) : Char :=
  if n < 26 then Char.ofNat (65 + n)
  else if n < 52 then Char.ofNat (97 + (n - 26))
  else if n < 62 then Char.ofNat (48 + (n - 52))
  else if n = 62 then '+'
  else '/'

/-- Character of the base64url alphabet (RFC 4648 §5). -/
def b64UrlChar (n : Nat) : Char :=
  if n < 26 then Char.ofNat (65 + n)
  else if n < 52 then Char.ofNat (97 + (n - 26))
  else if n < 62 then Char.ofNat (48 + (n - 52))
  else if n = 62 then '-'
  else '_'

/-- Model of `btoa(String.fromCharCode(...bytes))`: standard base64 with
padding. -/
def btoaBytes (bs : List Nat) : String :=
  String.mk ((b64Sextets bs).map b64StdChar ++ List.replicate (b64PadLen bs) '=')

/-- The two global character replacements `.replace(/\+/g, "-")` and
`.replace(/\//g, "_")` fused: both are single-character global
substitutions. -/
def urlSafeChar (c : Char) : Char :=
  if c = '+' then '-' else if c = '/' then '_' else c

/-- Global single-character substitution on a string (the effect of
`String.prototype.replace` with a global one-character pattern). -/
def replaceChars (f : Char → Char) (s : String) : String :=
  String.mk (s.data.map f)

/-- Model of `.replace(/=+$/, "")`: strip every trailing `=`. -/
def stripTrailingEq (s : String) : String :=
  String.mk (s.data.reverse.dropWhile (· = '=')).reverse

/-- Modelled from the spec: the unpadded base64url encoding (RFC 4648 §5
without padding), the encoding §3's invariant `challenge =
SHA256(verifier)` (base64url, unpadded) refers to. -/
def base64UrlNoPad (bs : List Nat) : String :=
  String.mk ((b64Sextets bs).map b64UrlChar)

/-- Result shape of `generatePKCEChallenge`. -/
structure PKCEChallenge where
  verifier : String
  challenge : String
deriving Repr, DecidableEq

/-- Embedding of `generatePKCEChallenge` (`src/utils/pkce.ts`): the
verifier is the hex rendering of 32 random bytes; the challenge is
`btoa(String.fromCharCode(...new Uint8Array(sha256(verifier))))` with
`+ -> -`, `/ -> _` substitutions and trailing `=` stripped. -/
def generatePKCEChallenge (rnd : List Nat) (sha256 : String → List Nat) :
    PKCEChallenge :=
  let verifier := bytesToHex rnd
  let hashArray := sha256 verifier
  let challenge := stripTrailingEq (replaceChars urlSafeChar (btoaBytes hashArray))
  { verifier := verifier, challenge := challenge }

theorem b64Sextets_lt :
    ∀ {bs : List Nat}, (∀ b ∈ bs, b < 256) → ∀ n ∈ b64Sextets bs, n < 64
  | [], _, n, hn => by simp [b64Sextets] at hn
  | [b1], h, n, hn => by
    have hb1 := h b1 (by simp)
    simp [b64Sextets] at hn
    rcases hn with rfl | rfl <;> omega
  | [b1, b2], h, n, hn => by
    have hb1 := h b1 (by simp)
    have hb2 := h b2 (by simp)
    simp [b64Sextets] at hn
    rcases hn with rfl | rfl | rfl <;> omega
  | b1 :: b2 :: b3 :: rest, h, n, hn => by
    have hb1 := h b1 (by simp)
    have hb2 := h b2 (by simp)
    have hb3 := h b3 (by simp)
    simp only [b64Sextets, List.mem_cons] at hn
    rcases hn with rfl | rfl | rfl | rfl | hn
    · omega
    · omega
    · omega
    · omega
    · exact b64Sextets_lt (fun b hb => h b (by simp [hb])) n hn

theorem urlSafeChar_b64StdChar :
    ∀ n, n < 64 → urlSafeChar (b64StdChar n) = b64UrlChar n := by decide

theorem b64UrlChar_ne_eq : ∀ n, n < 64 → b64UrlChar n ≠ '=' := by decide

theorem dropWhile_replicate_append (p : Char → Bool) (x : Char)
    (hp : p x = true) :
    ∀ (n : Nat) (l : List Char),
      List.dropWhile p (List.replicate n x ++ l) = List.dropWhile p l
  | 0, l => by simp
  | n + 1, l => by
    simp only [List.replicate_succ, List.cons_append, List.dropWhile_cons, hp,
      if_true]
    exact dropWhile_replicate_append p x hp n l

/-- Stripping trailing `=` from a padded string whose body contains no `=`
recovers the body. -/
theorem stripTrailingEq_append_pad (l : List Char) (p : Nat)
    (hl : ∀ c ∈ l, c ≠ '=') :
    stripTrailingEq (String.mk (l ++ List.replicate p '=')) = String.mk l := by
  unfold stripTrailingEq
  simp only [List.reverse_append, List.reverse_replicate]
  rw [dropWhile_replicate_append _ _ (by simp)]
  congr 1
  cases hrev : l.reverse with
  | nil =>
    have : l = [] := by simpa using congrArg List.reverse hrev
    simp [this, hrev]
  | cons c t =>
    have hc : c ∈ l := by
      have : c ∈ l.reverse := by rw [hrev]; exact List.mem_cons_self _ _
      simpa using this
    rw [List.dropWhile_cons]
    simp only [decide_eq_true_eq, hl c hc, if_false]
    rw [← hrev]
    simp

/-- The chain `btoa` / `+ -> -` / `/ -> _` / strip trailing `=` computes
exactly the unpadded base64url encoding. -/
theorem stripReplace_btoa_eq_base64UrlNoPad (bs : List Nat)
    (h : ∀ b ∈ bs, b < 256) :
    stripTrailingEq (replaceChars urlSafeChar (btoaBytes bs)) =
      base64UrlNoPad bs := by
  unfold btoaBytes replaceChars base64UrlNoPad
  simp only [List.map_append, List.map_map, List.map_replicate]
  have hrep : urlSafeChar '=' = '=' := by decide
  rw [hrep]
  have hmap : (b64Sextets bs).map (urlSafeChar ∘ b64StdChar) =
      (b64Sextets bs).map b64UrlChar := by
    apply List.map_congr_left
    intro n hn
    exact urlSafeChar_b64StdChar n (b64Sextets_lt h n hn)
  rw [hmap]
  apply stripTrailingEq_append_pad
  intro c hc
  obtain ⟨n, hn, rfl⟩ := List.mem_map.mp hc
  exact b64UrlChar_ne_eq n (b64Sextets_lt h n hn)

/-- C5.  For every authorization session begun by `generatePKCEChallenge`
(any 32 random bytes `rnd`, `sha256` the external SHA-256 digest, whose
output bytes are below 256), the challenge equals the unpadded base64url
encoding of the SHA-256 hash of the verifier string. -/
theorem generatePKCEChallenge_challenge_spec (rnd : List Nat)
    (sha256 : String → List Nat)
    (h : ∀ b ∈ sha256 (generatePKCEChallenge rnd sha256).verifier, b < 256) :
    (generatePKCEChallenge rnd sha256).challenge =
      base64UrlNoPad (sha256 ((generatePKCEChallenge rnd sha256).verifier)) := by
  unfold generatePKCEChallenge at *
  exact stripReplace_btoa_eq_base64UrlNoPad _ h

/-- Witness for C5 at a concrete instance: two random bytes would not occur
in production (the source draws 32), but the verifier/challenge relation is
the same for any length; we use the real shape, 32 zero bytes, and a stub
digest function returning the three bytes 0, 1, 77. -/
theorem generatePKCEChallenge_challenge_spec_witness :
    (∀ b ∈ (fun _ : String => [0, 1, 77]) (generatePKCEChallenge (List.replicate 32 0) (fun _ => [0, 1, 77])).verifier, b < 256) ∧
    (generatePKCEChallenge (List.replicate 32 0) (fun _ => [0, 1, 77])).challenge =
      base64UrlNoPad ((fun _ : String => [0, 1, 77]) ((generatePKCEChallenge (List.replicate 32 0) (fun _ => [0, 1, 77])).verifier)) :=
  ⟨by decide,
   generatePKCEChallenge_challenge_spec (List.replicate 32 0) (fun _ => [0, 1, 77])
     (by decide)⟩

/-! ## Twitter route handlers (`server/routes/twitter.ts`)

The Express handlers are embedded as functions of the request fields and
of the provider call's outcome (`axios` resolves with the body on a 2xx
status and throws an error carrying the provider response otherwise).
JS truthiness tests on request strings (`!code_challenge`, `!code`, ...)
are false for a missing field and for the empty string. -/

/-- Truthiness test `!x` on an optional string field. -/
def jsFalsyStr : Option String → Bool
  | none => true
  | some s => s.isEmpty

/-- JS `x || d` on an optional string: the default is taken when the
field is missing or empty. -/
def jsOrStr (o : Option String) (d : String) : String :=
  match o with
  | none => d
  | some s => if s.isEmpty then d else s

/-- An authorization URL: fixed base plus its ordered query parameters
(`URLSearchParams` preserves insertion order). -/
structure AuthUrl where
  base : String
  params : List (String × String)
deriving Repr, DecidableEq

/-- Response of the POST /auth route. -/
inductive AuthStartRes where
  | okUrl (url : AuthUrl) : AuthStartRes
  | err (status : Nat) (msg : String) : AuthStartRes
deriving Repr, DecidableEq

/-- Embedding of the POST /auth handler: reject a falsy `code_challenge`
with 400, a missing client id with 500, and otherwise answer `{url}`
where the state parameter is the request's `state` or, when that is
falsy, `crypto.randomBytes(32).toString("hex")` — `rnd` is the fresh
random byte draw.  The response carries only the URL; the substituted
state is not returned separately. -/
def twitterAuthHandler (code_challenge state : Option String)
    (envClientId envRedirect : Option String) (rnd : List Nat) : AuthStartRes :=
  if jsFalsyStr code_challenge then .err 400 "Code challenge is required"
  else if jsFalsyStr envClientId then .err 500 "Twitter client configuration missing"
  else .okUrl
    { base := "https://twitter.com/i/oauth2/authorize"
      params :=
        [("response_type", "code"),
         ("client_id", envClientId.getD ""),
         ("redirect_uri", jsOrStr envRedirect "http://localhost:5174/callback"),
         ("scope", "tweet.read users.read"),
         ("code_challenge", code_challenge.getD ""),
         ("code_challenge_method", "S256"),
         ("state", jsOrStr state (bytesToHex rnd))] }

/-- Provider-side rejection of a token exchange: the HTTP status and the
OAuth error code of the non-2xx response `axios` throws on. -/
structure ProviderErr where
  status : Nat
  errorCode : String
deriving Repr, DecidableEq

/-- Response of the POST /token route; `ok` passes the provider body
through (`res.json(response.data)`). -/
inductive TokenRouteRes where
  | ok (body : String) : TokenRouteRes
  | err (status : Nat) (msg : String) : TokenRouteRes
deriving Repr, DecidableEq

/-- Embedding of the POST /token handler: 400 when `code` or
`code_verifier` is falsy; otherwise the provider exchange's body on
success, and the catch-all 500 with a fixed message when the provider
rejects (any non-2xx makes `axios.post` throw into the catch block). -/
def twitterTokenHandler (code code_verifier : Option String)
    (exchange : Except ProviderErr String) : TokenRouteRes :=
  if jsFalsyStr code || jsFalsyStr code_verifier then
    .err 400 "Code and code verifier are required"
  else
    match exchange with
    | .ok data => .ok data
    | .error _ => .err 500 "Failed to exchange token"

/-- Provider-side failure of the resource fetch (the status of the non-2xx
response `axios.get` throws on). -/
structure FetchErr where
  status : Nat
deriving Repr, DecidableEq

/-- Response of the GET /user route.  On success the handler serializes,
hashes and signs `userData` (the signing chain is the `serializedData`
model above); only the error paths matter here, so the 200 body is
carried as the fetched payload. -/
inductive UserRouteRes where
  | okSigned (userData : Json) : UserRouteRes
  | err (status : Nat) (msg : String) : UserRouteRes
deriving Repr

/-- Structural character-list test that `pre` starts the list `l` (the
semantics of `String.prototype.startsWith`). -/
def charsStartWith : List Char → List Char → Bool
  | [], _ => true
  | _ :: _, [] => false
  | a :: as, b :: bs => a == b && charsStartWith as bs

/-- Bearer-header shape check of the GET /user handler:
`!authHeader?.startsWith("Bearer ")`. -/
def badAuthHeader : Option String → Bool
  | none => true
  | some h => ! charsStartWith "Bearer ".data h.data

/-- Embedding of the GET /user handler: 401 for a missing or non-Bearer
`Authorization` header; otherwise fetch the resource — any provider
failure (401, 5xx, ...) lands in the catch block as the same fixed 500. -/
def twitterUserHandler (authHeader : Option String)
    (fetchRes : Except FetchErr Json) : UserRouteRes :=
  if badAuthHeader authHeader then .err 401 "Invalid authorization header"
  else
    match fetchRes with
    | .error _ => .err 500 "Failed to fetch or sign user data"
    | .ok userData => .okSigned userData

theorem hexByte_length {b : Nat} (hb : b < 256) : (hexByte b).length = 2 := by
  unfold hexByte
  by_cases h : b < 16 <;> simp [h, String.length]

theorem bytesToHex_length :
    ∀ bs : List Nat, (∀ b ∈ bs, b < 256) → (bytesToHex bs).length = 2 * bs.length
  | [], _ => rfl
  | b :: rest, h => by
    have hb := h b (by simp)
    have ih := bytesToHex_length rest (fun x hx => h x (by simp [hx]))
    simp [bytesToHex, String.length_append, hexByte_length hb, ih]
    ring

theorem hexDigitChar_mem (n : Nat) (h : n < 16) :
    hexDigitChar n ∈ "0123456789abcdef".data := by
  interval_cases n <;> decide

theorem bytesToHex_chars :
    ∀ bs : List Nat, (∀ b ∈ bs, b < 256) →
      ∀ c ∈ (bytesToHex bs).data, c ∈ "0123456789abcdef".data
  | [], _, c, hc => by simp [bytesToHex] at hc
  | b :: rest, h, c, hc => by
    have hb := h b (by simp)
    rw [bytesToHex, String.data_append] at hc
    rcases List.mem_append.mp hc with hc | hc
    · unfold hexByte at hc
      by_cases hlt : b < 16
      · simp [hlt] at hc
        rcases hc with rfl | rfl
        · decide
        · exact hexDigitChar_mem _ hlt
      · simp [hlt] at hc
        rcases hc with rfl | rfl
        · exact hexDigitChar_mem _ (by omega)
        · exact hexDigitChar_mem _ (by omega)
    · exact bytesToHex_chars rest (fun x hx => h x (by simp [hx])) c hc

/-- C10.  An authorization-URL request carrying a `code_challenge` but no
`state` still succeeds: the handler answers `{url}` (no error), and the
URL's `state` parameter is the hex rendering of the fresh 32-byte random
draw — 64 lowercase hex characters.  The `AuthStartRes` shape shows the
response carries nothing but the URL, so the client never receives the
substituted state separately. -/
theorem twitterAuthHandler_no_state (c cid : String) (envRedirect : Option String)
    (rnd : List Nat) (hc : c ≠ "") (hcid : cid ≠ "") (hlen : rnd.length = 32)
    (hb : ∀ b ∈ rnd, b < 256) :
    twitterAuthHandler (some c) none (some cid) envRedirect rnd =
      .okUrl
        { base := "https://twitter.com/i/oauth2/authorize"
          params :=
            [("response_type", "code"),
             ("client_id", cid),
             ("redirect_uri", jsOrStr envRedirect "http://localhost:5174/callback"),
             ("scope", "tweet.read users.read"),
             ("code_challenge", c),
             ("code_challenge_method", "S256"),
             ("state", bytesToHex rnd)] } ∧
    (bytesToHex rnd).length = 64 ∧
    ∀ ch ∈ (bytesToHex rnd).data, ch ∈ "0123456789abcdef".data := by
  refine ⟨?_, ?_, bytesToHex_chars rnd hb⟩
  · unfold twitterAuthHandler
    simp [jsFalsyStr, jsOrStr, String.isEmpty_iff, hc, hcid]
  · rw [bytesToHex_length rnd hb, hlen]

/-- Witness for C10: a concrete challenge, client id and a 32-byte draw. -/
theorem twitterAuthHandler_no_state_witness :
    twitterAuthHandler (some "chal") none (some "cid") none (List.replicate 32 7) =
      .okUrl
        { base := "https://twitter.com/i/oauth2/authorize"
          params :=
            [("response_type", "code"),
             ("client_id", "cid"),
             ("redirect_uri", jsOrStr none "http://localhost:5174/callback"),
             ("scope", "tweet.read users.read"),
             ("code_challenge", "chal"),
             ("code_challenge_method", "S256"),
             ("state", bytesToHex (List.replicate 32 7))] } ∧
    (bytesToHex (List.replicate 32 7)).length = 64 ∧
    ∀ ch ∈ (bytesToHex (List.replicate 32 7)).data, ch ∈ "0123456789abcdef".data :=
  twitterAuthHandler_no_state "chal" "cid" none (List.replicate 32 7)
    (by decide) (by decide) (by decide) (by decide)

/-- Counterexample to C7 as stated: the 500 answer is one fixed message —
two different provider error codes produce identical responses, so the
response does not carry the provider's error code. -/
theorem twitterTokenHandler_drops_provider_code :
    twitterTokenHandler (some "authcode") (some "ver")
        (.error { status := 400, errorCode := "invalid_request" }) =
      twitterTokenHandler (some "authcode") (some "ver")
        (.error { status := 400, errorCode := "invalid_grant" }) ∧
    twitterTokenHandler (some "authcode") (some "ver")
        (.error { status := 400, errorCode := "invalid_request" }) =
      .err 500 "Failed to exchange token" := by decide

/-- C7 amended.  On any non-2xx provider response (for a request that
reaches the exchange, i.e. `code` and `code_verifier` are non-falsy), the
handler returns the fixed `500 Failed to exchange token` failure — without
the provider's error code — and never a token body. -/
theorem twitterTokenHandler_non2xx (code code_verifier : Option String)
    (e : ProviderErr)
    (h1 : jsFalsyStr code = false) (h2 : jsFalsyStr code_verifier = false) :
    twitterTokenHandler code code_verifier (.error e) =
      .err 500 "Failed to exchange token" ∧
    ∀ body, twitterTokenHandler code code_verifier (.error e) ≠ .ok body := by
  unfold twitterTokenHandler
  simp [h1, h2]

/-- Witness for C7 amended: a concrete rejected exchange. -/
theorem twitterTokenHandler_non2xx_witness :
    twitterTokenHandler (some "c") (some "v")
        (.error { status := 403, errorCode := "access_denied" }) =
      .err 500 "Failed to exchange token" ∧
    ∀ body, twitterTokenHandler (some "c") (some "v")
        (.error { status := 403, errorCode := "access_denied" }) ≠ .ok body :=
  twitterTokenHandler_non2xx (some "c") (some "v")
    { status := 403, errorCode := "access_denied" } (by decide) (by decide)

/-- Counterexample to C8 as stated: a provider 401 and a provider 503
produce identical responses (the fixed 500), so the fetcher does not
return an Unauthorized failure distinct from other provider errors. -/
theorem twitterUserHandler_provider401_indistinct :
    twitterUserHandler (some "Bearer tok") (.error { status := 401 }) =
      twitterUserHandler (some "Bearer tok") (.error { status := 503 }) ∧
    twitterUserHandler (some "Bearer tok") (.error { status := 401 }) =
      .err 500 "Failed to fetch or sign user data" := by
  constructor <;> rfl

/-- C8 amended.  The handler's 401 is decided solely by the shape of the
`Authorization` header; every provider-side failure — a 401 from an
expired token as much as a 5xx outage — maps to the same fixed 500, so
callers cannot tell them apart from the response. -/
theorem twitterUserHandler_error_classes (authHeader : Option String)
    (e : FetchErr) :
    twitterUserHandler authHeader (.error e) =
      if badAuthHeader authHeader then .err 401 "Invalid authorization header"
      else .err 500 "Failed to fetch or sign user data" := by
  unfold twitterUserHandler
  split <;> rfl

/-! ## OAuth callback (`AuthCallback.handleCallback`)

The callback component reads `code` and `state` from the redirect URL and
the PKCE session material (`pkce_verifier`, `oauth_state`) from
localStorage, exchanges the code, fetches the signed user payload, and —
on the success path only — stores the results and removes the session
keys.  The two network calls are parameters: `tokenResp` is the parsed
POST /token body when `response.ok` (otherwise `none`), `userResp` the
GET /user body when that response is ok. -/

/-- The four localStorage keys the callback touches. -/
structure CallbackStorage where
  pkce_verifier : Option String
  oauth_state : Option String
  twitter_token : Option String
  twitter_signed_data : Option String
deriving Repr, DecidableEq

/-- Parsed body of a successful token exchange. -/
structure TokenData where
  access_token : String
deriving Repr, DecidableEq

/-- What the callback shows: the success message, or the caught error's
message. -/
inductive CallbackOutcome where
  | success : CallbackOutcome
  | failure (msg : String) : CallbackOutcome
deriving Repr, DecidableEq

/-- Embedding of `AuthCallback.handleCallback`: parameter/state checks,
token exchange, user fetch, then storage writes; every thrown error lands
in the catch block with the indicated message and leaves the remaining
statements unexecuted. -/
def handleCallback (urlCode urlState : Option String) (st : CallbackStorage)
    (tokenResp : Option TokenData) (userResp : Option String) :
    CallbackOutcome × CallbackStorage :=
  if jsFalsyStr urlCode || jsFalsyStr st.pkce_verifier ||
      jsFalsyStr urlState || jsFalsyStr st.oauth_state then
    (.failure "Missing required parameters", st)
  else if urlState ≠ st.oauth_state then
    (.failure "Invalid state parameter", st)
  else
    match tokenResp with
    | none => (.failure "Failed to exchange code for token", st)
    | some td =>
      let st1 := { st with twitter_token := some td.access_token }
      match userResp with
      | none => (.failure "Failed to fetch user data", st1)
      | some ud =>
        (.success,
         { st1 with twitter_signed_data := some ud,
                    pkce_verifier := none, oauth_state := none })

/-- Counterexample to C6 as stated: after a failed exchange (provider
rejects the code) the session material is not deleted — the verifier is
still in storage — and the very same stale session then drives a second,
successful exchange. -/
theorem handleCallback_stale_session_reusable :
    (handleCallback (some "c") (some "s")
        { pkce_verifier := some "v", oauth_state := some "s",
          twitter_token := none, twitter_signed_data := none }
        none none).2.pkce_verifier = some "v" ∧
    (handleCallback (some "c") (some "s")
        ((handleCallback (some "c") (some "s")
            { pkce_verifier := some "v", oauth_state := some "s",
              twitter_token := none, twitter_signed_data := none }
            none none).2)
        (some { access_token := "tok" }) (some "signed")).1 = .success := by
  decide

theorem jsFalsyStr_none : jsFalsyStr none = true := rfl

/-- C6 amended.  The session material is deleted only when the exchange
and the user fetch both succeed; after such a success a repeated callback
fails the missing-parameter check, but after any failure the verifier and
state survive unchanged in storage (and remain usable, per the
counterexample). -/
theorem handleCallback_deletes_only_on_success (urlCode urlState : Option String)
    (st : CallbackStorage) (tokenResp : Option TokenData)
    (userResp : Option String) :
    ((handleCallback urlCode urlState st tokenResp userResp).1 = .success →
      (handleCallback urlCode urlState st tokenResp userResp).2.pkce_verifier = none ∧
      (handleCallback urlCode urlState st tokenResp userResp).2.oauth_state = none ∧
      ∀ c' s' tr' ur',
        (handleCallback c' s'
          (handleCallback urlCode urlState st tokenResp userResp).2 tr' ur').1 =
        .failure "Missing required parameters") ∧
    ((handleCallback urlCode urlState st tokenResp userResp).1 ≠ .success →
      (handleCallback urlCode urlState st tokenResp userResp).2.pkce_verifier =
        st.pkce_verifier ∧
      (handleCallback urlCode urlState st tokenResp userResp).2.oauth_state =
        st.oauth_state) := by
  unfold handleCallback
  by_cases hmiss : (jsFalsyStr urlCode || jsFalsyStr st.pkce_verifier ||
      jsFalsyStr urlState || jsFalsyStr st.oauth_state) = true
  · simp [hmiss]
  · rw [Bool.not_eq_true] at hmiss
    simp only [Bool.or_eq_false_iff] at hmiss
    obtain ⟨⟨⟨h1, h2⟩, h3⟩, h4⟩ := hmiss
    by_cases hstate : urlState = st.oauth_state
    · cases tokenResp with
      | none => simp [h1, h2, h3, h4, hstate]
      | some td =>
        cases userResp with
        | none => simp [h1, h2, h3, h4, hstate]
        | some ud =>
          simp [h1, h2, h3, h4, hstate, jsFalsyStr_none]
    · simp [h1, h2, h3, h4, hstate]

/-- Witness for C6 amended: a fully successful run deletes the material
and a repeated callback on the resulting storage fails. -/
theorem handleCallback_deletes_only_on_success_witness :
    (handleCallback (some "c") (some "s")
        { pkce_verifier := some "v", oauth_state := some "s",
          twitter_token := none, twitter_signed_data := none }
        (some { access_token := "tok" }) (some "signed")).2.pkce_verifier = none ∧
    (handleCallback (some "c") (some "s")
        { pkce_verifier := some "v", oauth_state := some "s",
          twitter_token := none, twitter_signed_data := none }
        (some { access_token := "tok" }) (some "signed")).2.oauth_state = none ∧
    ∀ c' s' tr' ur',
      (handleCallback c' s'
        (handleCallback (some "c") (some "s")
          { pkce_verifier := some "v", oauth_state := some "s",
            twitter_token := none, twitter_signed_data := none }
          (some { access_token := "tok" }) (some "signed")).2 tr' ur').1 =
      .failure "Missing required parameters" :=
  (handleCallback_deletes_only_on_success (some "c") (some "s")
    { pkce_verifier := some "v", oauth_state := some "s",
      twitter_token := none, twitter_signed_data := none }
    (some { access_token := "tok" }) (some "signed")).1 (by decide)

/-! ## Client proof pipeline (`index.js`, `verification.js`)

The submit handler parses the age, drives the external Noir/Barretenberg
toolchain (`noir.execute`, `backend.generateProof`, `backend.verifyProof`)
and, only when self-verification passes, serializes the proof and stores
it under the `ageProof` localStorage key.  The toolchain is the oracle
parameter; the result records which outcome was shown, the stored value,
and the argument the external executor was invoked with (if it was). -/

/-- JS `x || []` on an optional array field: missing (or null) takes the
default; a present array — even empty — is truthy and kept. -/
def jsOrArr (o : Option (List String)) : List String :=
  match o with
  | none => []
  | some xs => xs

/-- A proof as returned by `backend.generateProof`: `proof` is a
`Uint8Array` (byte values), `publicInputs` an array of field strings that
the backend may in principle omit (the code guards it with `|| []`). -/
structure GeneratedProof where
  proof : List Nat
  publicInputs : Option (List String)
deriving Repr, DecidableEq

/-- The serialized artifact (`serializeProof` output, stored as JSON):
`proof` as a plain number array, `publicInputs`, and a timestamp.  The
field is optional because `deserializeProof` also accepts pasted JSON
that lacks it. -/
structure StoredProof where
  proof : List Nat
  publicInputs : Option (List String)
  timestamp : Nat
deriving Repr, DecidableEq

/-- Embedding of `serializeProof` (`index.js`): `Array.from` on the proof
bytes, `publicInputs || []`, and `Date.now()` as the timestamp. -/
def serializeProof (p : GeneratedProof) (now : Nat) : StoredProof :=
  { proof := p.proof
    publicInputs := some (jsOrArr p.publicInputs)
    timestamp := now }

/-- What `deserializeProof` (`verification.js`) rebuilds for the
verifier: the proof bytes (`new Uint8Array(data.proof)`) and
`data.publicInputs || []`; the timestamp is dropped. -/
structure DeserializedProof where
  proof : List Nat
  publicInputs : List String
deriving Repr, DecidableEq

/-- Embedding of `deserializeProof` (`verification.js`). -/
def deserializeProof (d : StoredProof) : DeserializedProof :=
  { proof := d.proof
    publicInputs := jsOrArr d.publicInputs }

/-- C4.  For every proof artifact produced by a successful pipeline run
(proof bytes plus a present `publicInputs` sequence, as
`backend.generateProof` returns them), deserializing the serialized form
yields the artifact back: the proof bytes are equal element for element
and the `publicInputs` sequence is equal. -/
theorem proofArtifact_roundtrip (p : GeneratedProof) (now : Nat)
    (xs : List String) (h : p.publicInputs = some xs) :
    (deserializeProof (serializeProof p now)).proof = p.proof ∧
    (deserializeProof (serializeProof p now)).publicInputs = xs := by
  simp [serializeProof, deserializeProof, jsOrArr, h]

/-- Witness for C4 at a concrete artifact. -/
theorem proofArtifact_roundtrip_witness :
    (deserializeProof (serializeProof
        { proof := [1, 2, 255], publicInputs := some ["0x19"] } 42)).proof =
      [1, 2, 255] ∧
    (deserializeProof (serializeProof
        { proof := [1, 2, 255], publicInputs := some ["0x19"] } 42)).publicInputs =
      ["0x19"] :=
  proofArtifact_roundtrip
    { proof := [1, 2, 255], publicInputs := some ["0x19"] } 42 ["0x19"] rfl

/-- One run's view of the external toolchain: whether `noir.execute` and
`generateProof` resolve, the generated proof's content, the
`verifyProof` verdict, and `Date.now()`. -/
structure NoirOracle where
  executeOk : Bool
  proveOk : Bool
  proofBytes : List Nat
  publicInputs : Option (List String)
  verifyOk : Bool
  now : Nat
deriving Repr, DecidableEq

/-- The submit handler's visible outcome: the invalid-age message, the
success panel (with the serialized proof), the verification-failed
message, or the catch-all error message. -/
inductive SubmitOutcome where
  | invalidAge : SubmitOutcome
  | success (stored : StoredProof) : SubmitOutcome
  | verifyFailed : SubmitOutcome
  | errorCaught : SubmitOutcome
deriving Repr, DecidableEq

/-- Result of one submit-handler run: the outcome shown, the `ageProof`
localStorage slot after the run, and the argument `noir.execute` was
invoked with (`none` when the run never reached the executor). -/
structure SubmitResult where
  outcome : SubmitOutcome
  ageProof : Option StoredProof
  executeCalledWith : Option Int
deriving Repr, DecidableEq

/-- Embedding of the submit click handler (`index.js`): reject `NaN`,
invoke the executor with the parsed age as given (there is no range
check), generate and then self-verify the proof; on a `true` verdict
serialize and store it, on `false` show the failure and store nothing;
any toolchain rejection lands in the catch block. -/
def submitHandler (ageVal : Option Int) (o : NoirOracle)
    (st : Option StoredProof) : SubmitResult :=
  match ageVal with
  | none => { outcome := .invalidAge, ageProof := st, executeCalledWith := none }
  | some age =>
    if o.executeOk then
      if o.proveOk then
        if o.verifyOk then
          let proofData := serializeProof
            { proof := o.proofBytes, publicInputs := o.publicInputs } o.now
          { outcome := .success proofData, ageProof := some proofData,
            executeCalledWith := some age }
        else
          { outcome := .verifyFailed, ageProof := st,
            executeCalledWith := some age }
      else
        { outcome := .errorCaught, ageProof := st,
          executeCalledWith := some age }
    else
      { outcome := .errorCaught, ageProof := st,
        executeCalledWith := some age }

/-- Counterexample to C2 as stated: with the out-of-range age 300 the
handler does not reject before the executor — `noir.execute` is invoked
with 300 itself (the oracle here is one where the executor then rejects,
which is what the external ABI does with an out-of-range `u8`). -/
theorem submitHandler_executes_out_of_range :
    (submitHandler (some 300)
      { executeOk := false, proveOk := false, proofBytes := [],
        publicInputs := none, verifyOk := false, now := 0 }
      none).executeCalledWith = some 300 := by decide

/-- C2 amended.  The handler range-checks nothing: the only pre-executor
rejection is `NaN`; every parsed numeric age — in range or not — is
passed unchanged (in particular untruncated) to the external witness
executor, whose own rejection surfaces as the generic caught-error
outcome, not a distinct input-shape failure. -/
theorem submitHandler_no_range_check (age : Int) (o : NoirOracle)
    (st : Option StoredProof) :
    (submitHandler (some age) o st).executeCalledWith = some age ∧
    (submitHandler none o st).executeCalledWith = none ∧
    (o.executeOk = false →
      (submitHandler (some age) o st).outcome = .errorCaught) := by
  refine ⟨?_, rfl, ?_⟩
  · unfold submitHandler
    by_cases hex : o.executeOk <;> by_cases hpr : o.proveOk <;>
      by_cases hvf : o.verifyOk <;> simp [hex, hpr, hvf]
  · intro hex
    unfold submitHandler
    simp [hex]

/-- Witness for C2 amended at age 300 and a rejecting executor. -/
theorem submitHandler_no_range_check_witness :
    (submitHandler (some 300)
      { executeOk := false, proveOk := false, proofBytes := [],
        publicInputs := none, verifyOk := false, now := 0 }
      none).executeCalledWith = some 300 ∧
    (submitHandler none
      { executeOk := false, proveOk := false, proofBytes := [],
        publicInputs := none, verifyOk := false, now := 0 }
      none).executeCalledWith = none ∧
    (({ executeOk := false, proveOk := false, proofBytes := [],
        publicInputs := none, verifyOk := false, now := 0 } : NoirOracle).executeOk = false →
      (submitHandler (some 300)
        { executeOk := false, proveOk := false, proofBytes := [],
          publicInputs := none, verifyOk := false, now := 0 }
        none).outcome = .errorCaught) :=
  submitHandler_no_range_check 300
    { executeOk := false, proveOk := false, proofBytes := [],
      publicInputs := none, verifyOk := false, now := 0 } none

/-- C3.  A proof whose self-verification returns `false` is never shown
as success and never persisted (the `ageProof` slot is untouched), and
the slot changes only to the serialized form of a proof whose
self-verification returned `true`, shown as success. -/
theorem submitHandler_self_verifies (ageVal : Option Int) (o : NoirOracle)
    (st : Option StoredProof) :
    (o.verifyOk = false →
      (∀ d, (submitHandler ageVal o st).outcome ≠ .success d) ∧
      (submitHandler ageVal o st).ageProof = st) ∧
    ((submitHandler ageVal o st).ageProof ≠ st →
      o.verifyOk = true ∧
      (submitHandler ageVal o st).ageProof =
        some (serializeProof
          { proof := o.proofBytes, publicInputs := o.publicInputs } o.now) ∧
      (submitHandler ageVal o st).outcome =
        .success (serializeProof
          { proof := o.proofBytes, publicInputs := o.publicInputs } o.now)) := by
  unfold submitHandler
  cases ageVal with
  | none => simp
  | some age =>
    by_cases hex : o.executeOk <;> by_cases hpr : o.proveOk <;>
      by_cases hvf : o.verifyOk <;> simp [hex, hpr, hvf]

/-- Witness for C3: a run whose self-verification fails is not shown as
success and stores nothing. -/
theorem submitHandler_self_verifies_witness :
    (∀ d, (submitHandler (some 25)
      { executeOk := true, proveOk := true, proofBytes := [9],
        publicInputs := some [], verifyOk := false, now := 7 }
      none).outcome ≠ .success d) ∧
    (submitHandler (some 25)
      { executeOk := true, proveOk := true, proofBytes := [9],
        publicInputs := some [], verifyOk := false, now := 7 }
      none).ageProof = none :=
  (submitHandler_self_verifies (some 25)
    { executeOk := true, proveOk := true, proofBytes := [9],
      publicInputs := some [], verifyOk := false, now := 7 } none).1 rfl

/-- C9 as the code behaves: the handler consults no in-flight flag, so a
second submission made while the first run's artifact is pending simply
runs, reports success — never a `Failed(AlreadyInProgress)` — and
overwrites the first run's `ageProof` slot. -/
theorem submitHandler_second_run_overwrites :
    (submitHandler (some 25)
      { executeOk := true, proveOk := true, proofBytes := [2],
        publicInputs := some [], verifyOk := true, now := 200 }
      ((submitHandler (some 25)
        { executeOk := true, proveOk := true, proofBytes := [1],
          publicInputs := some [], verifyOk := true, now := 100 }
        none).ageProof)).outcome =
      .success (serializeProof
        { proof := [2], publicInputs := some [] } 200) ∧
    (submitHandler (some 25)
      { executeOk := true, proveOk := true, proofBytes := [2],
        publicInputs := some [], verifyOk := true, now := 200 }
      ((submitHandler (some 25)
        { executeOk := true, proveOk := true, proofBytes := [1],
          publicInputs := some [], verifyOk := true, now := 100 }
        none).ageProof)).ageProof =
      some (serializeProof { proof := [2], publicInputs := some [] } 200) ∧
    some (serializeProof { proof := [2], publicInputs := some [] } 200) ≠
      (submitHandler (some 25)
        { executeOk := true, proveOk := true, proofBytes := [1],
          publicInputs := some [], verifyOk := true, now := 100 }
        none).ageProof := by decide
